import Mathlib

/-!
Verification of the ResumeWise candidate-screening pipeline
(`server_fastapi/app`): document text extraction, prompt assembly,
the retrying Gemini client, and the screening orchestrator.

The Python source is shallowly embedded: pure functions become Lean
functions, exceptions become `Except`, bytes become `List Nat`
(each < 256), and behaviour of CPython / library primitives the code
calls (`str.strip`, `in`, `bytes.decode("utf-8")`, `json.loads`,
pydantic model validation) is modelled explicitly below, each with a
comment saying what it models.
-/

set_option maxRecDepth 20000

namespace ResumeWise

/-! ### Python string primitives -/

/-- Models CPython `str.isspace` / the whitespace set stripped by
`str.strip()` (Py_UNICODE_ISSPACE): ASCII tab..carriage-return, space,
the separator controls 0x1C-0x1F, and the Unicode space characters. -/
def pyIsSpace (c : Char) : Bool :=
  let n := c.toNat
  (9 ≤ n && n ≤ 13) || n == 32 || (28 ≤ n && n ≤ 31) ||
  n == 0x85 || n == 0xA0 || n == 0x1680 ||
  (0x2000 ≤ n && n ≤ 0x200A) || n == 0x2028 || n == 0x2029 ||
  n == 0x202F || n == 0x205F || n == 0x3000

/-- Models Python `str.strip()` (no argument): remove leading and
trailing whitespace characters. -/
def pyStrip (s : String) : String :=
  ⟨((s.data.dropWhile pyIsSpace).reverse.dropWhile pyIsSpace).reverse⟩

/-- `hasPrefixL s pat`: `pat` is a prefix of `s` (character lists). -/
def hasPrefixL : List Char → List Char → Bool
  | _, [] => true
  | [], _ :: _ => false
  | c :: cs, p :: ps => c == p && hasPrefixL cs ps

/-- `hasSubstrL pat s`: `pat` occurs contiguously in `s`. -/
def hasSubstrL (pat : List Char) : List Char → Bool
  | [] => pat.isEmpty
  | c :: t => hasPrefixL (c :: t) pat || hasSubstrL pat t

/-- Models the Python substring test `pat in s` on strings. -/
def pyInStr (pat s : String) : Bool :=
  hasSubstrL pat.data s.data

/-- Python truthiness of an optional string (`None` and `""` are falsy). -/
def pyTruthyStr : Option String → Bool
  | none => false
  | some s => s ≠ ""

/-! ### Strict UTF-8 decoding

Models CPython `bytes.decode("utf-8")` with the default `errors="strict"`:
rejects invalid start bytes, invalid continuation bytes, overlong
encodings, surrogates and code points above U+10FFFF; never substitutes
replacement characters.  Bytes are `Nat`s (< 256 in scope). -/

inductive Utf8Reason where
  | invalidStartByte
  | invalidContinuationByte
  | unexpectedEndOfData
  deriving DecidableEq, Repr

/-- A continuation byte in the general range 0x80-0xBF. -/
def isCont (b : Nat) : Bool := 0x80 ≤ b && b ≤ 0xBF

/-- One step of the strict UTF-8 decoder: decode the first scalar of the
byte list, returning the code point and the rest, or a failure reason. -/
def utf8Step : List Nat → Except Utf8Reason (Nat × List Nat)
  | [] => .error .unexpectedEndOfData
  | b :: rest =>
    if b ≤ 0x7F then .ok (b, rest)
    else if b ≤ 0xC1 then .error .invalidStartByte
    else if b ≤ 0xDF then
      match rest with
      | [] => .error .unexpectedEndOfData
      | c1 :: r =>
        if isCont c1 then .ok ((b - 0xC0) * 0x40 + (c1 - 0x80), r)
        else .error .invalidContinuationByte
    else if b ≤ 0xEF then
      -- three-byte form; first continuation range depends on the lead byte
      -- (0xE0 excludes overlongs, 0xED excludes surrogates)
      let lo := if b == 0xE0 then 0xA0 else 0x80
      let hi := if b == 0xED then 0x9F else 0xBF
      match rest with
      | [] => .error .unexpectedEndOfData
      | c1 :: r1 =>
        if lo ≤ c1 && c1 ≤ hi then
          match r1 with
          | [] => .error .unexpectedEndOfData
          | c2 :: r2 =>
            if isCont c2 then
              .ok ((b - 0xE0) * 0x1000 + (c1 - 0x80) * 0x40 + (c2 - 0x80), r2)
            else .error .invalidContinuationByte
        else .error .invalidContinuationByte
    else if b ≤ 0xF4 then
      -- four-byte form; 0xF0 excludes overlongs, 0xF4 caps at U+10FFFF
      let lo := if b == 0xF0 then 0x90 else 0x80
      let hi := if b == 0xF4 then 0x8F else 0xBF
      match rest with
      | [] => .error .unexpectedEndOfData
      | c1 :: r1 =>
        if lo ≤ c1 && c1 ≤ hi then
          match r1 with
          | [] => .error .unexpectedEndOfData
          | c2 :: r2 =>
            if isCont c2 then
              match r2 with
              | [] => .error .unexpectedEndOfData
              | c3 :: r3 =>
                if isCont c3 then
                  .ok ((b - 0xF0) * 0x40000 + (c1 - 0x80) * 0x1000 +
                       (c2 - 0x80) * 0x40 + (c3 - 0x80), r3)
                else .error .invalidContinuationByte
            else .error .invalidContinuationByte
        else .error .invalidContinuationByte
    else .error .invalidStartByte

/-- Fuel-driven loop of the strict decoder (fuel bounds the byte count). -/
def utf8DecodeAux : Nat → List Nat → Except Utf8Reason (List Char)
  | _, [] => .ok []
  | 0, _ :: _ => .error .unexpectedEndOfData
  | fuel + 1, bs@(_ :: _) =>
    match utf8Step bs with
    | .error r => .error r
    | .ok (cp, rest) =>
      match utf8DecodeAux fuel rest with
      | .error r => .error r
      | .ok cs => .ok (Char.ofNat cp :: cs)

/-- Models `bytes.decode("utf-8")` (strict): the whole byte list decoded
to a string, or a `UnicodeDecodeError` reason. -/
def utf8Decode (bs : List Nat) : Except Utf8Reason String :=
  match utf8DecodeAux bs.length bs with
  | .error r => .error r
  | .ok cs => .ok ⟨cs⟩

/-! ### JSON values and `json.loads`

Models CPython's `json.loads` on the JSON fragment the pipeline
exercises: objects, arrays, strings (with escapes), numbers (as exact
rationals rather than IEEE floats; the pipeline never does arithmetic
on them), `true`/`false`/`null`.  The non-standard `NaN`/`Infinity`
extensions are outside the model.  Decode failures carry the message
and the char offset, and `JsonDecodeError.toMessage` reproduces
CPython's `str(e)` format
`"<msg>: line <l> column <c> (char <pos>)"`. -/

inductive Json where
  | null
  | bool (b : Bool)
  | num (q : Rat)
  | str (s : String)
  | arr (elems : List Json)
  | obj (fields : List (String × Json))
  deriving Repr

structure JsonDecodeError where
  msg : String
  lineno : Nat
  colno : Nat
  pos : Nat
  deriving DecidableEq, Repr

/-- CPython's `str(JSONDecodeError)`. -/
def JsonDecodeError.toMessage (e : JsonDecodeError) : String :=
  e.msg ++ ": line " ++ toString e.lineno ++ " column " ++ toString e.colno ++
    " (char " ++ toString e.pos ++ ")"

/-- Index of the last `'\n'` strictly before `pos` in `doc`, if any
(CPython `doc.rfind('\n', 0, pos)`). -/
def lastNlBefore (doc : List Char) (pos : Nat) : Option Nat :=
  ((doc.take pos).enum.filter (fun p => p.2 == '\n')).getLast?.map (·.1)

/-- Build a `JsonDecodeError` at char offset `pos` of `doc`, computing
line and column the way CPython's `JSONDecodeError.__init__` does. -/
def mkJsonError (doc : List Char) (pos : Nat) (msg : String) : JsonDecodeError :=
  { msg := msg
    lineno := (doc.take pos).count '\n' + 1
    colno := match lastNlBefore doc pos with
             | none => pos + 1
             | some i => pos - i
    pos := pos }

/-- JSON insignificant whitespace (CPython `_w`): space, tab, LF, CR. -/
def isJsonWs (c : Char) : Bool :=
  c == ' ' || c == '\t' || c == '\n' || c == '\r'

/-- Skip JSON whitespace, advancing the char offset. -/
def skipWs : List Char → Nat → List Char × Nat
  | c :: t, p => if isJsonWs c then skipWs t (p + 1) else (c :: t, p)
  | [], p => ([], p)

def isDigitCh (c : Char) : Bool := 48 ≤ c.toNat && c.toNat ≤ 57

def digitsToNat (ds : List Char) : Nat :=
  ds.foldl (fun a c => a * 10 + (c.toNat - 48)) 0

/-- Value of a hex digit, if `c` is one. -/
def hexVal (c : Char) : Option Nat :=
  let n := c.toNat
  if 48 ≤ n && n ≤ 57 then some (n - 48)
  else if 97 ≤ n && n ≤ 102 then some (n - 87)
  else if 65 ≤ n && n ≤ 70 then some (n - 55)
  else none

/-- Parse exactly four hex digits into a code unit. -/
def parse4Hex : List Char → Option (Nat × List Char)
  | a :: b :: c :: d :: r =>
    match hexVal a, hexVal b, hexVal c, hexVal d with
    | some x, some y, some z, some w => some (((x * 16 + y) * 16 + z) * 16 + w, r)
    | _, _, _, _ => none
  | _ => none

/-- Code point to `Char`; unpaired surrogates (which CPython would keep
as lone surrogate code units, unrepresentable in `Char`) map to the
`Char.ofNat` default.  The pipeline's payloads contain none. -/
def jsonChar (cp : Nat) : Char := Char.ofNat cp

/-- String body scanner (after the opening quote, which sits at
`quotePos`).  Models CPython scanning: terminates at `'"'`, rejects raw
control characters below 0x20 (strict mode), handles the standard
escapes and `\uXXXX` with surrogate-pair combination.  Fuel starts at
the remaining length and only decreases. -/
def parseStrAux (doc : List Char) (quotePos : Nat) :
    Nat → List Char → Nat → Except JsonDecodeError (List Char × List Char × Nat)
  | _, [], _ => .error (mkJsonError doc quotePos "Unterminated string starting at")
  | 0, _ :: _, _ => .error (mkJsonError doc quotePos "Unterminated string starting at")
  | fuel + 1, c :: t, p =>
    if c == '"' then .ok ([], t, p + 1)
    else if c == '\\' then
      match t with
      | [] => .error (mkJsonError doc quotePos "Unterminated string starting at")
      | e :: t2 =>
        let simpleEsc : Option Char :=
          if e == '"' then some '"'
          else if e == '\\' then some '\\'
          else if e == '/' then some '/'
          else if e == 'b' then some (Char.ofNat 8)
          else if e == 'f' then some (Char.ofNat 12)
          else if e == 'n' then some '\n'
          else if e == 'r' then some '\r'
          else if e == 't' then some '\t'
          else none
        match simpleEsc with
        | some ch =>
          match parseStrAux doc quotePos fuel t2 (p + 2) with
          | .error err => .error err
          | .ok (cs, rest, q) => .ok (ch :: cs, rest, q)
        | none =>
          if e == 'u' then
            match parse4Hex t2 with
            | none => .error (mkJsonError doc p "Invalid \\uXXXX escape")
            | some (u1, r1) =>
              if 0xD800 ≤ u1 && u1 ≤ 0xDBFF then
                match r1 with
                | '\\' :: 'u' :: r2 =>
                  match parse4Hex r2 with
                  | some (u2, r3) =>
                    if 0xDC00 ≤ u2 && u2 ≤ 0xDFFF then
                      let cp := 0x10000 + (u1 - 0xD800) * 0x400 + (u2 - 0xDC00)
                      match parseStrAux doc quotePos fuel r3 (p + 12) with
                      | .error err => .error err
                      | .ok (cs, rest, q) => .ok (jsonChar cp :: cs, rest, q)
                    else
                      match parseStrAux doc quotePos fuel ('\\' :: 'u' :: r2) (p + 6) with
                      | .error err => .error err
                      | .ok (cs, rest, q) => .ok (jsonChar u1 :: cs, rest, q)
                  | none =>
                    match parseStrAux doc quotePos fuel ('\\' :: 'u' :: r2) (p + 6) with
                    | .error err => .error err
                    | .ok (cs, rest, q) => .ok (jsonChar u1 :: cs, rest, q)
                | _ =>
                  match parseStrAux doc quotePos fuel r1 (p + 6) with
                  | .error err => .error err
                  | .ok (cs, rest, q) => .ok (jsonChar u1 :: cs, rest, q)
              else
                match parseStrAux doc quotePos fuel r1 (p + 6) with
                | .error err => .error err
                | .ok (cs, rest, q) => .ok (jsonChar u1 :: cs, rest, q)
          else .error (mkJsonError doc p ("Invalid \\escape: " ++ String.singleton e))
    else if c.toNat < 0x20 then
      .error (mkJsonError doc p "Invalid control character at")
    else
      match parseStrAux doc quotePos fuel t (p + 1) with
      | .error err => .error err
      | .ok (cs, rest, q) => .ok (c :: cs, rest, q)

/-- Parse a JSON number starting at `pos` (grammar of CPython's
`NUMBER_RE`: `-?(0|[1-9]\d*)(\.\d+)?([eE][-+]?\d+)?`); result as an
exact rational.  `none` when no number starts here. -/
def parseNum (rest : List Char) (pos : Nat) : Option (Rat × List Char × Nat) :=
  let (sign, r1, p1) : Int × List Char × Nat :=
    match rest with
    | '-' :: t => (-1, t, pos + 1)
    | _ => (1, rest, pos)
  match r1 with
  | c :: _ =>
    if ¬ isDigitCh c then none
    else
      let intDigits := r1.takeWhile isDigitCh
      -- leading-zero rule: "0" may not be followed by more digits
      let intDigits := if c == '0' then ['0'] else intDigits
      let r2 := r1.drop intDigits.length
      let p2 := p1 + intDigits.length
      let (fracDigits, r3, p3) : List Char × List Char × Nat :=
        match r2 with
        | '.' :: t =>
          let ds := t.takeWhile isDigitCh
          if ds.isEmpty then ([], r2, p2)
          else (ds, t.drop ds.length, p2 + 1 + ds.length)
        | _ => ([], r2, p2)
      let (expVal, r4, p4) : Int × List Char × Nat :=
        match r3 with
        | e :: t =>
          if e == 'e' || e == 'E' then
            let (esign, t2, extra) : Int × List Char × Nat :=
              match t with
              | '+' :: t3 => (1, t3, 2)
              | '-' :: t3 => (-1, t3, 2)
              | _ => (1, t, 1)
            let ds := t2.takeWhile isDigitCh
            if ds.isEmpty then (0, r3, p3)
            else (esign * (digitsToNat ds : Int), t2.drop ds.length,
                  p3 + extra + ds.length)
          else (0, r3, p3)
        | [] => (0, r3, p3)
      let mantissa : Int :=
        sign * ((digitsToNat intDigits * 10 ^ fracDigits.length
                 + digitsToNat fracDigits : Nat) : Int)
      -- mantissa / 10^fracLen * 10^exp, assembled with `mkRat` so that
      -- the value is in lowest terms and reduces definitionally
      let value : Rat :=
        if 0 ≤ expVal then
          mkRat (mantissa * (10 : Int) ^ expVal.toNat) (10 ^ fracDigits.length)
        else
          mkRat mantissa (10 ^ fracDigits.length * 10 ^ (-expVal).toNat)
      some (value, r4, p4)
  | [] => none

/-- The opening and closing brace characters (U+007B, U+007D). -/
def obraceCh : Char := Char.ofNat 123

def cbraceCh : Char := Char.ofNat 125

/-- The three recursion modes of the JSON scanner: one value
(`scan_once`), the element loop of `JSONArray`, or the member loop of
`JSONObject` (carrying the offset of the current key's opening quote). -/
inductive ParseJob where
  | value
  | arrLoop (acc : List Json)
  | objLoop (acc : List (String × Json)) (quotePos : Nat)

/-- The JSON scanner.  A single function, fuel-indexed so recursion is
structural and reduces definitionally; the fuel handed out by
`jsonLoads` dominates the scanner's work, so the fuel-exhaustion branch
is unreachable from there. -/
def parseJ (doc : List Char) :
    Nat → ParseJob → List Char → Nat → Except JsonDecodeError (Json × List Char × Nat)
  | 0, _, _, pos => .error (mkJsonError doc pos "Expecting value")
  | fuel + 1, .value, rest, pos =>
    (match rest with
     | [] => .error (mkJsonError doc pos "Expecting value")
     | c :: t =>
       if c == '"' then
         match parseStrAux doc pos t.length t (pos + 1) with
         | .error e => .error e
         | .ok (cs, r, p) => .ok (.str ⟨cs⟩, r, p)
       else if c == obraceCh then
         let (r1, p1) := skipWs t (pos + 1)
         match r1 with
         | c1 :: r2 =>
           if c1 == cbraceCh then .ok (.obj [], r2, p1 + 1)
           else if c1 == '"' then parseJ doc fuel (.objLoop [] p1) r2 (p1 + 1)
           else .error
             (mkJsonError doc p1 "Expecting property name enclosed in double quotes")
         | [] => .error
             (mkJsonError doc p1 "Expecting property name enclosed in double quotes")
       else if c == '[' then
         let (r1, p1) := skipWs t (pos + 1)
         match r1 with
         | ']' :: r2 => .ok (.arr [], r2, p1 + 1)
         | _ => parseJ doc fuel (.arrLoop []) r1 p1
       else if hasPrefixL rest ['n', 'u', 'l', 'l'] then
         .ok (.null, rest.drop 4, pos + 4)
       else if hasPrefixL rest ['t', 'r', 'u', 'e'] then
         .ok (.bool true, rest.drop 4, pos + 4)
       else if hasPrefixL rest ['f', 'a', 'l', 's', 'e'] then
         .ok (.bool false, rest.drop 5, pos + 5)
       else
         match parseNum rest pos with
         | some (q, r, p) => .ok (.num q, r, p)
         | none => .error (mkJsonError doc pos "Expecting value"))
  | fuel + 1, .arrLoop acc, rest, pos =>
    (match parseJ doc fuel .value rest pos with
     | .error e => .error e
     | .ok (v, r1, p1) =>
       let (r2, p2) := skipWs r1 p1
       match r2 with
       | ']' :: r3 => .ok (.arr (acc ++ [v]), r3, p2 + 1)
       | ',' :: r3 =>
         let (r4, p4) := skipWs r3 (p2 + 1)
         parseJ doc fuel (.arrLoop (acc ++ [v])) r4 p4
       | _ => .error (mkJsonError doc p2 "Expecting ',' delimiter"))
  | fuel + 1, .objLoop acc quotePos, rest, pos =>
    (match parseStrAux doc quotePos rest.length rest pos with
     | .error e => .error e
     | .ok (kcs, r1, p1) =>
       let (r2, p2) := skipWs r1 p1
       match r2 with
       | ':' :: r3 =>
         let (r4, p4) := skipWs r3 (p2 + 1)
         match parseJ doc fuel .value r4 p4 with
         | .error e => .error e
         | .ok (v, r5, p5) =>
           let key : String := ⟨kcs⟩
           let acc2 :=
             if acc.any (fun m => m.1 == key) then
               acc.map (fun m => if m.1 == key then (key, v) else m)
             else acc ++ [(key, v)]
           let (r6, p6) := skipWs r5 p5
           match r6 with
           | c6 :: r7 =>
             if c6 == cbraceCh then .ok (.obj acc2, r7, p6 + 1)
             else if c6 == ',' then
               let (r8, p8) := skipWs r7 (p6 + 1)
               match r8 with
               | '"' :: r9 => parseJ doc fuel (.objLoop acc2 p8) r9 (p8 + 1)
               | _ => .error
                   (mkJsonError doc p8 "Expecting property name enclosed in double quotes")
             else .error (mkJsonError doc p6 "Expecting ',' delimiter")
           | [] => .error (mkJsonError doc p6 "Expecting ',' delimiter")
       | _ => .error (mkJsonError doc p2 "Expecting ':' delimiter"))

/-- `scan_once`: parse one JSON value at `pos`. -/
def parseVal (doc : List Char) (fuel : Nat) (rest : List Char) (pos : Nat) :
    Except JsonDecodeError (Json × List Char × Nat) :=
  parseJ doc fuel .value rest pos

/-- Models `json.loads` on a string: skip leading whitespace, parse one
value, require only whitespace to follow (else `"Extra data"`). -/
def jsonLoads (s : String) : Except JsonDecodeError Json :=
  let doc := s.data
  let (r0, p0) := skipWs doc 0
  match parseVal doc (doc.length * 2 + 8) r0 p0 with
  | .error e => .error e
  | .ok (v, r1, p1) =>
    let (r2, p2) := skipWs r1 p1
    match r2 with
    | [] => .ok v
    | _ :: _ => .error (mkJsonError doc p2 "Extra data")

/-! ### `app/models/screening.py`: the pydantic models

`ScreeningResult` has four fields declared with `Field(...)` (required)
— `match_score_percent` (with `ge=0, le=100`), `fit_summary`,
`extracted_data`, `skill_breakdown` — and three list fields declared
with `default_factory=list` (optional, defaulting to `[]`).
Validation is modelled after pydantic: all field errors are collected;
numeric fields accept JSON numbers (an `int`-typed field additionally
requires an integral value); string and list fields require their exact
type (pydantic's lax string-to-number coercions are never exercised by
the pipeline's claims and error identity, not error count, is what the
theorems consume). -/

structure ExtractedData where
  name : String
  email : String
  total_years_experience : Rat
  deriving DecidableEq, Repr

structure SkillBreakdown where
  technical_match_count : Int
  soft_skill_match_count : Int
  deriving DecidableEq, Repr

structure ScreeningResult where
  match_score_percent : Rat
  fit_summary : String
  critical_missing_skills : List String
  technical_skills_matched : List String
  soft_skills_matched : List String
  extracted_data : ExtractedData
  skill_breakdown : SkillBreakdown
  deriving DecidableEq, Repr

/-- One pydantic validation error: location path and error kind. -/
structure FieldError where
  loc : List String
  kind : String
  deriving DecidableEq, Repr

/-- Python `dict` lookup on a parsed JSON object. -/
def jsonGet (fields : List (String × Json)) (k : String) : Option Json :=
  (fields.find? (fun p => p.1 == k)).map (·.2)

def errsOf {α : Type} : Except (List FieldError) α → List FieldError
  | .ok _ => []
  | .error es => es

/-- Required float field. -/
def vFloat (loc : List String) : Option Json → Except (List FieldError) Rat
  | none => .error [⟨loc, "missing"⟩]
  | some (.num q) => .ok q
  | some _ => .error [⟨loc, "float_type"⟩]

/-- Required int field: a JSON number with an integral value. -/
def vInt (loc : List String) : Option Json → Except (List FieldError) Int
  | none => .error [⟨loc, "missing"⟩]
  | some (.num q) => if q.den = 1 then .ok q.num else .error [⟨loc, "int_from_float"⟩]
  | some _ => .error [⟨loc, "int_type"⟩]

/-- Required string field. -/
def vStr (loc : List String) : Option Json → Except (List FieldError) String
  | none => .error [⟨loc, "missing"⟩]
  | some (.str s) => .ok s
  | some _ => .error [⟨loc, "string_type"⟩]

/-- Items of a `List[str]` field, with per-index error locations. -/
def vStrItems (loc : List String) (idx : Nat) :
    List Json → Except (List FieldError) (List String)
  | [] => .ok []
  | .str s :: t =>
    match vStrItems loc (idx + 1) t with
    | .ok ss => .ok (s :: ss)
    | .error es => .error es
  | _ :: t =>
    .error (⟨loc ++ [toString idx], "string_type"⟩ :: errsOf (vStrItems loc (idx + 1) t))

/-- `List[str]` field with `default_factory=list`: absent means `[]`. -/
def vStrListDefault (loc : List String) : Option Json → Except (List FieldError) (List String)
  | none => .ok []
  | some (.arr items) => vStrItems loc 0 items
  | some _ => .error [⟨loc, "list_type"⟩]

/-- `match_score_percent`: required float with `ge=0, le=100`. -/
def vScorePercent (j : Option Json) : Except (List FieldError) Rat :=
  match vFloat ["match_score_percent"] j with
  | .error es => .error es
  | .ok q =>
    if q < 0 then .error [⟨["match_score_percent"], "greater_than_equal"⟩]
    else if 100 < q then .error [⟨["match_score_percent"], "less_than_equal"⟩]
    else .ok q

/-- Required nested `ExtractedData`. -/
def vExtractedData (j : Option Json) : Except (List FieldError) ExtractedData :=
  match j with
  | none => .error [⟨["extracted_data"], "missing"⟩]
  | some (.obj fs) =>
    let rName := vStr ["extracted_data", "name"] (jsonGet fs "name")
    let rEmail := vStr ["extracted_data", "email"] (jsonGet fs "email")
    let rYears := vFloat ["extracted_data", "total_years_experience"]
      (jsonGet fs "total_years_experience")
    match rName, rEmail, rYears with
    | .ok a, .ok b, .ok c => .ok ⟨a, b, c⟩
    | _, _, _ => .error (errsOf rName ++ errsOf rEmail ++ errsOf rYears)
  | some _ => .error [⟨["extracted_data"], "model_type"⟩]

/-- Required nested `SkillBreakdown`. -/
def vSkillBreakdown (j : Option Json) : Except (List FieldError) SkillBreakdown :=
  match j with
  | none => .error [⟨["skill_breakdown"], "missing"⟩]
  | some (.obj fs) =>
    let rTech := vInt ["skill_breakdown", "technical_match_count"]
      (jsonGet fs "technical_match_count")
    let rSoft := vInt ["skill_breakdown", "soft_skill_match_count"]
      (jsonGet fs "soft_skill_match_count")
    match rTech, rSoft with
    | .ok a, .ok b => .ok ⟨a, b⟩
    | _, _ => .error (errsOf rTech ++ errsOf rSoft)
  | some _ => .error [⟨["skill_breakdown"], "model_type"⟩]

/-- Models `ScreeningResult(**result_dict)` validation on a JSON object:
errors from all fields are collected; extra keys are ignored. -/
def validateScreeningResult (fields : List (String × Json)) :
    Except (List FieldError) ScreeningResult :=
  let r1 := vScorePercent (jsonGet fields "match_score_percent")
  let r2 := vStr ["fit_summary"] (jsonGet fields "fit_summary")
  let r3 := vStrListDefault ["critical_missing_skills"] (jsonGet fields "critical_missing_skills")
  let r4 := vStrListDefault ["technical_skills_matched"] (jsonGet fields "technical_skills_matched")
  let r5 := vStrListDefault ["soft_skills_matched"] (jsonGet fields "soft_skills_matched")
  let r6 := vExtractedData (jsonGet fields "extracted_data")
  let r7 := vSkillBreakdown (jsonGet fields "skill_breakdown")
  match r1, r2, r3, r4, r5, r6, r7 with
  | .ok a, .ok b, .ok c, .ok d, .ok e, .ok f, .ok g => .ok ⟨a, b, c, d, e, f, g⟩
  | _, _, _, _, _, _, _ =>
    .error (errsOf r1 ++ errsOf r2 ++ errsOf r3 ++ errsOf r4 ++ errsOf r5 ++
            errsOf r6 ++ errsOf r7)

/-! ### Python exception values reaching the controller's handlers -/

/-- The Python type name of a JSON runtime value (for exception texts). -/
def jsonTypeName : Json → String
  | .null => "NoneType"
  | .bool _ => "bool"
  | .num q => if q.den = 1 then "int" else "float"
  | .str _ => "str"
  | .arr _ => "list"
  | .obj _ => "dict"

/-- A Python exception as observed by `except` clauses: its class is
irrelevant to the controller (everything below is an `Exception`
subclass other than the timeout, which the loop distinguishes by
construction), only `str(e)` feeds the retry decision. -/
inductive PyExc where
  | generic (msg : String)
  | jsonDecode (e : JsonDecodeError)
  | validationErr (errs : List FieldError)
  | typeErr (msg : String)
  | keyErr (key : String)
  | indexErr (msg : String)
  | attributeErr (msg : String)
  deriving DecidableEq, Repr

/-- Render one pydantic error line (kind at its dotted location). -/
def fieldErrorLine (e : FieldError) : String :=
  String.intercalate "." e.loc ++ ": " ++ e.kind

/-- Models `str(e)`.  For pydantic the rendering keeps the error count,
the model name and each error's location/kind (the per-version framing
and echoed input values of real pydantic are not reproduced; no theorem
reads this text for validation errors). -/
def PyExc.toMessage : PyExc → String
  | .generic m => m
  | .jsonDecode e => e.toMessage
  | .validationErr errs =>
    toString errs.length ++ " validation errors for ScreeningResult: " ++
      String.intercalate "; " (errs.map fieldErrorLine)
  | .typeErr m => m
  | .keyErr k => "'" ++ k ++ "'"
  | .indexErr m => m
  | .attributeErr m => m

/-- Python truthiness of a JSON runtime value. -/
def jsonTruthy : Json → Bool
  | .null => false
  | .bool b => b
  | .num q => q ≠ 0
  | .str s => s ≠ ""
  | .arr l => ¬ l.isEmpty
  | .obj f => ¬ f.isEmpty

/-- Python `len()`. -/
def pyLen : Json → Except PyExc Nat
  | .str s => .ok s.length
  | .arr l => .ok l.length
  | .obj f => .ok f.length
  | j => .error (.typeErr ("object of type '" ++ jsonTypeName j ++ "' has no len()"))

/-- Python integer indexing `x[i]`. -/
def pyIndexNat (j : Json) (i : Nat) : Except PyExc Json :=
  match j with
  | .arr l =>
    match l.get? i with
    | some v => .ok v
    | none => .error (.indexErr "list index out of range")
  | .str s =>
    match s.data.get? i with
    | some c => .ok (.str (String.singleton c))
    | none => .error (.indexErr "string index out of range")
  | .obj _ => .error (.keyErr (toString i))
  | _ => .error (.typeErr ("'" ++ jsonTypeName j ++ "' object is not subscriptable"))

/-- Python string-key subscript `x["k"]`. -/
def pyIndexKey (j : Json) (k : String) : Except PyExc Json :=
  match j with
  | .obj fs =>
    match jsonGet fs k with
    | some v => .ok v
    | none => .error (.keyErr k)
  | .arr _ => .error (.typeErr "list indices must be integers or slices, not str")
  | .str _ => .error (.typeErr "string indices must be integers")
  | _ => .error (.typeErr ("'" ++ jsonTypeName j ++ "' object is not subscriptable"))

/-! ### `app/controllers/screening_controller.py`: `call_llm_screening`

The endpoint is a parameter (an *oracle*): for each attempt number and
request prompt it yields either a timeout or an HTTP response
`(status, body-text)`.  `response.json()` is `jsonLoads` of the body
text, and `response.text` is the body text, as in `httpx`.  The run is
instrumented with the number of outbound calls made and the list of
backoff sleeps performed, the observables the spec's retry invariants
speak about. -/

def MAX_RETRIES : Nat := 5

def INITIAL_BACKOFF : Rat := 1

/-- `backoff_time = (2 ** attempt) * INITIAL_BACKOFF`; with
`INITIAL_BACKOFF = 1.0` this is exactly the integer `2 ^ attempt`
seconds (assembled via `mkRat`, which reduces definitionally, unlike
the irreducible `Rat` multiplication). -/
def backoffTime (attempt : Nat) : Rat := mkRat ((2 : Int) ^ attempt) 1

/-- The three segments the f-string at lines 57-66 of
`screening_controller.py` puts around the two texts (exact whitespace,
including the trailing blanks after the two headers). -/
def promptJdHeader : String := "\n    JOB DESCRIPTION: \n    ---\n    "

def promptMidSection : String := "\n    ---\n\n    RESUME TEXT: \n    ---\n    "

def promptTail : String := "\n    ---"

/-- The prompt f-string: template body, then the delimited job
description, then the delimited resume. -/
def buildPrompt (template resume_text job_description_text : String) : String :=
  template ++ promptJdHeader ++ job_description_text ++ promptMidSection ++
    resume_text ++ promptTail

/-- What one attempt observes from the endpoint. -/
inductive AttemptOutcome where
  | timeout
  | resp (status : Nat) (body : String)
  deriving DecidableEq, Repr

/-- Lines 96-107: the HTTP-200 branch.  `response.json()`, the
truthiness/length guard on `"candidates"`, the subscript chain down to
`["text"]`, `.strip()`, `json.loads`, and `ScreeningResult(**d)`;
every failure is the Python exception the corresponding step raises. -/
def handle200 (body : String) : Except PyExc ScreeningResult :=
  match jsonLoads body with
  | .error e => .error (.jsonDecode e)
  | .ok responseData =>
    match responseData with
    | .obj fields =>
      let cands? := jsonGet fields "candidates"
      -- `if response_data.get("candidates") and len(response_data["candidates"]) > 0:`
      if (cands?.map jsonTruthy).getD false then
        match pyLen (cands?.getD .null) with
        | .error e => .error e
        | .ok n =>
          if n > 0 then
            match pyIndexNat (cands?.getD .null) 0 with
            | .error e => .error e
            | .ok cand0 =>
              match pyIndexKey cand0 "content" with
              | .error e => .error e
              | .ok content =>
                match pyIndexKey content "parts" with
                | .error e => .error e
                | .ok parts =>
                  match pyIndexNat parts 0 with
                  | .error e => .error e
                  | .ok part0 =>
                    match pyIndexKey part0 "text" with
                    | .error e => .error e
                    | .ok textVal =>
                      match textVal with
                      | .str raw =>
                        let json_text := pyStrip raw
                        match jsonLoads json_text with
                        | .error e => .error (.jsonDecode e)
                        | .ok (.obj resultFields) =>
                          match validateScreeningResult resultFields with
                          | .error es => .error (.validationErr es)
                          | .ok r => .ok r
                        | .ok other =>
                          .error (.typeErr
                            ("ScreeningResult() argument after ** must be a mapping, not "
                              ++ jsonTypeName other))
                      | other =>
                        .error (.attributeErr
                          ("'" ++ jsonTypeName other ++ "' object has no attribute 'strip'"))
          else .error (.generic "LLM response format was unexpected.")
      else .error (.generic "LLM response format was unexpected.")
    | other =>
      .error (.attributeErr
        ("'" ++ jsonTypeName other ++ "' object has no attribute 'get'"))

/-- What one loop iteration decides to do. -/
inductive StepDecision where
  | ret (r : ScreeningResult)
  | raiseExc (e : PyExc)
  | retryAfter (backoff : Rat)
  deriving DecidableEq, Repr

/-- One iteration of the `for attempt in range(MAX_RETRIES)` body at
attempt index `attempt`: the 200 branch, the `503`-with-retry branch,
the other-status raise, the timeout handler, and the catch-all handler
that retries when `attempt < MAX_RETRIES - 1 and "503" in str(e)`. -/
def processAttempt (attempt : Nat) : AttemptOutcome → StepDecision
  | .timeout =>
    if attempt < MAX_RETRIES - 1 then
      .retryAfter (backoffTime attempt)
    else .raiseExc (.generic "LLM API request timed out after multiple retries.")
  | .resp status body =>
    if status = 200 then
      match handle200 body with
      | .ok r => .ret r
      | .error e =>
        if attempt < MAX_RETRIES - 1 && pyInStr "503" e.toMessage then
          .retryAfter (backoffTime attempt)
        else .raiseExc e
    else if status = 503 ∧ attempt < MAX_RETRIES - 1 then
      .retryAfter (backoffTime attempt)
    else
      -- `raise Exception(f"LLM API request failed: {error_detail}")`, which the
      -- catch-all handler below the loop body then inspects for "503"
      let e := PyExc.generic ("LLM API request failed: " ++ body)
      if attempt < MAX_RETRIES - 1 && pyInStr "503" e.toMessage then
        .retryAfter (backoffTime attempt)
      else .raiseExc e

instance {ε α : Type} [DecidableEq ε] [DecidableEq α] : DecidableEq (Except ε α)
  | .ok a, .ok b =>
    if h : a = b then .isTrue (by rw [h]) else .isFalse (by simp [h])
  | .error a, .error b =>
    if h : a = b then .isTrue (by rw [h]) else .isFalse (by simp [h])
  | .ok _, .error _ => .isFalse (by simp)
  | .error _, .ok _ => .isFalse (by simp)

/-- Observable outcome of a `call_llm_screening` run: outbound calls
made, backoff sleeps performed (in order), and the returned value or
the exception that escaped. -/
structure RunResult where
  calls : Nat
  sleeps : List Rat
  outcome : Except PyExc ScreeningResult
  deriving DecidableEq, Repr

/-- The retry loop: `rem` is the number of loop iterations left
(`MAX_RETRIES - attempt`); falling off the loop reaches line 139. -/
def callLoop (oracle : Nat → AttemptOutcome) :
    Nat → Nat → Nat → List Rat → RunResult
  | 0, _, calls, sleeps =>
    ⟨calls, sleeps, .error (.generic "Maximum retry attempts reached for LLM API.")⟩
  | rem + 1, attempt, calls, sleeps =>
    match processAttempt attempt (oracle attempt) with
    | .ret r => ⟨calls + 1, sleeps, .ok r⟩
    | .raiseExc e => ⟨calls + 1, sleeps, .error e⟩
    | .retryAfter b => callLoop oracle rem (attempt + 1) (calls + 1) (sleeps ++ [b])

/-- `call_llm_screening`: the empty-credential guard (Python truthiness
of `settings.GEMINI_API_KEY`), prompt assembly, then the retry loop
against the endpoint oracle. -/
def call_llm_screening (apiKey : String) (template : String)
    (oracle : Nat → String → AttemptOutcome)
    (resume_text job_description_text : String) : RunResult :=
  if apiKey = "" then
    ⟨0, [], .error (.generic "GEMINI_API_KEY environment variable not set.")⟩
  else
    let prompt := buildPrompt template resume_text job_description_text
    callLoop (fun n => oracle n prompt) MAX_RETRIES 0 0 []

/-! ### `app/utils/document_parser.py`

The PDF and DOCX libraries (`PyPDF2.PdfReader` page texts,
`python-docx` paragraph texts) are parameters: a library run either
fails with an exception message or yields the list of per-page /
per-paragraph texts the source then filters, joins and strips. -/

inductive ExtractError where
  /-- `Exception(f"Unsupported file format: {mime_type}")` -/
  | unsupportedFmt (mime : String)
  /-- `Exception(f"Failed to extract text from PDF: {str(e)}")` -/
  | pdfFailed (msg : String)
  /-- `Exception(f"Failed to extract text from DOCX: {str(e)}")` -/
  | docxFailed (msg : String)
  /-- `UnicodeDecodeError` escaping `file_content.decode("utf-8")` -/
  | unicodeDecodeErr (reason : Utf8Reason)
  deriving DecidableEq, Repr

/-- `str(e)` of an extraction exception (for the decode error, CPython's
byte/offset detail is summarised by the failure reason; nothing reads
this text back). -/
def ExtractError.toMessage : ExtractError → String
  | .unsupportedFmt m => "Unsupported file format: " ++ m
  | .pdfFailed m => "Failed to extract text from PDF: " ++ m
  | .docxFailed m => "Failed to extract text from DOCX: " ++ m
  | .unicodeDecodeErr .invalidStartByte => "'utf-8' codec can't decode byte: invalid start byte"
  | .unicodeDecodeErr .invalidContinuationByte =>
    "'utf-8' codec can't decode byte: invalid continuation byte"
  | .unicodeDecodeErr .unexpectedEndOfData => "'utf-8' codec can't decode byte: unexpected end of data"

/-- `extract_text_from_pdf`: page texts, dropping falsy (empty) ones,
joined by newlines, stripped; any library failure wrapped. -/
def extract_text_from_pdf (pdfLib : List Nat → Except String (List String))
    (file_content : List Nat) : Except ExtractError String :=
  match pdfLib file_content with
  | .error e => .error (.pdfFailed e)
  | .ok pages => .ok (pyStrip (String.intercalate "\n" (pages.filter (fun t => t ≠ ""))))

/-- `extract_text_from_docx`: paragraph texts, dropping falsy ones,
joined by newlines, stripped; any library failure wrapped. -/
def extract_text_from_docx (docxLib : List Nat → Except String (List String))
    (file_content : List Nat) : Except ExtractError String :=
  match docxLib file_content with
  | .error e => .error (.docxFailed e)
  | .ok paras => .ok (pyStrip (String.intercalate "\n" (paras.filter (fun t => t ≠ ""))))

/-- `extract_text_from_file`: dispatch on the declared MIME type; plain
text is strict UTF-8 decode plus strip; anything unrecognized fails. -/
def extract_text_from_file (pdfLib docxLib : List Nat → Except String (List String))
    (file_content : List Nat) (mime_type : String) : Except ExtractError String :=
  if mime_type = "application/pdf" then
    extract_text_from_pdf pdfLib file_content
  else if mime_type = "application/vnd.openxmlformats-officedocument.wordprocessingml.document"
      ∨ mime_type = "application/msword" then
    extract_text_from_docx docxLib file_content
  else if mime_type = "text/plain" then
    match utf8Decode file_content with
    | .error r => .error (.unicodeDecodeErr r)
    | .ok s => .ok (pyStrip s)
  else .error (.unsupportedFmt mime_type)

/-! ### `ScreeningController.screen_candidate` -/

/-- A FastAPI `UploadFile` as the controller reads it: its bytes and its
declared `content_type` (`none` models an absent declaration). -/
structure UploadFile where
  content : List Nat
  content_type : Option String
  deriving DecidableEq, Repr

/-- `resume_file.content_type or "text/plain"`: Python `or` takes the
fallback when the declared type is `None` or the empty string. -/
def contentTypeOrPlain : Option String → String
  | none => "text/plain"
  | some s => if s = "" then "text/plain" else s

structure HttpException where
  status_code : Nat
  detail : String
  deriving DecidableEq, Repr

/-- Result of a `screen_candidate` run, instrumented with how many times
`call_llm_screening` was invoked (the spec's mock call-count). -/
structure ScreenOutcome where
  result : Except HttpException ScreeningResult
  llmCalls : Nat
  deriving DecidableEq, Repr

/-- Line 204's catch-all: non-`HTTPException` exceptions become a 500
with the stringified cause. -/
def internalError (msg : String) : HttpException :=
  ⟨500, "Internal server error during screening process: " ++ msg⟩

/-- One side's `if <side>_file and not <side>_text:` block (lines
169-174 and 177-182 are this same code for the two sides): when a file
is present and the text is falsy, the side's text becomes the file
extraction (whose exception propagates); otherwise the text stands. -/
def processSide (pdfLib docxLib : List Nat → Except String (List String))
    (file : Option UploadFile) (text : Option String) :
    Except ExtractError (Option String) :=
  match file with
  | some f =>
    if pyTruthyStr text then .ok text
    else
      match extract_text_from_file pdfLib docxLib f.content
          (contentTypeOrPlain f.content_type) with
      | .error e => .error e
      | .ok t => .ok (some t)
  | none => .ok text

/-- `screen_candidate`: per side, extract from the file only when a file
is present and the text is falsy; then validate both texts (falsy or
blank after strip is missing, resume checked first); only then invoke
the LLM client.  `HTTPException`s pass through; extraction and LLM
exceptions surface as 500s. -/
def screen_candidate (pdfLib docxLib : List Nat → Except String (List String))
    (llm : String → String → Except PyExc ScreeningResult)
    (resume_file job_description_file : Option UploadFile)
    (resume_text job_description_text : Option String) : ScreenOutcome :=
  match processSide pdfLib docxLib resume_file resume_text with
  | .error e => ⟨.error (internalError e.toMessage), 0⟩
  | .ok resume_text' =>
    match processSide pdfLib docxLib job_description_file job_description_text with
    | .error e => ⟨.error (internalError e.toMessage), 0⟩
    | .ok job_description_text' =>
      -- `if not resume_text or not resume_text.strip():`
      match resume_text' with
      | none => ⟨.error ⟨400, "Missing resume input (file or text)."⟩, 0⟩
      | some rtxt =>
        if rtxt = "" ∨ pyStrip rtxt = "" then
          ⟨.error ⟨400, "Missing resume input (file or text)."⟩, 0⟩
        else
          match job_description_text' with
          | none => ⟨.error ⟨400, "Missing job description input (file or text)."⟩, 0⟩
          | some jtxt =>
            if jtxt = "" ∨ pyStrip jtxt = "" then
              ⟨.error ⟨400, "Missing job description input (file or text)."⟩, 0⟩
            else
              match llm rtxt jtxt with
              | .ok r => ⟨.ok r, 1⟩
              | .error e => ⟨.error (internalError e.toMessage), 1⟩

/-! ### Concrete endpoint fixtures used by the scenario theorems -/

/-- JSON string-escape for embedding a payload inside a JSON string
(the fixtures below only need quote and backslash). -/
def escJsonChar (c : Char) : String :=
  if c = '"' then "\\\"" else if c = '\\' then "\\\\" else String.singleton c

/-- A Gemini success envelope whose first candidate's part text is
`json_text`: exactly the shape `call_llm_screening` unwraps. -/
def geminiBody (json_text : String) : String :=
  "\x7b\"candidates\": [\x7b\"content\": \x7b\"parts\": [\x7b\"text\": \"" ++
    String.join (json_text.data.map escJsonChar) ++ "\"\x7d]\x7d\x7d]\x7d"

/-- A schema-conformant inner payload with all seven top-level fields. -/
def goodInnerJson : String :=
  "\x7b\"match_score_percent\": 85.5, \"fit_summary\": \"Strong fit.\", " ++
  "\"critical_missing_skills\": [\"AWS\"], \"technical_skills_matched\": [\"Python\"], " ++
  "\"soft_skills_matched\": [\"Leadership\"], \"extracted_data\": " ++
  "\x7b\"name\": \"Jane Doe\", \"email\": \"jane@example.com\", \"total_years_experience\": 5.0\x7d, " ++
  "\"skill_breakdown\": \x7b\"technical_match_count\": 8, \"soft_skill_match_count\": 4\x7d\x7d"

/-- The `ScreeningResult` that `goodInnerJson` deserializes to. -/
def goodResult : ScreeningResult :=
  ⟨mkRat 171 2, "Strong fit.", ["AWS"], ["Python"], ["Leadership"],
   ⟨"Jane Doe", "jane@example.com", mkRat 5 1⟩, ⟨8, 4⟩⟩

/-- `goodInnerJson` with the required-per-spec `critical_missing_skills`
key removed entirely. -/
def c1InnerJson : String :=
  "\x7b\"match_score_percent\": 85.5, \"fit_summary\": \"Strong fit.\", " ++
  "\"technical_skills_matched\": [\"Python\"], " ++
  "\"soft_skills_matched\": [\"Leadership\"], \"extracted_data\": " ++
  "\x7b\"name\": \"Jane Doe\", \"email\": \"jane@example.com\", \"total_years_experience\": 5.0\x7d, " ++
  "\"skill_breakdown\": \x7b\"technical_match_count\": 8, \"soft_skill_match_count\": 4\x7d\x7d"

/-- `goodResult` with the defaulted hole where the absent field was. -/
def c1PartialResult : ScreeningResult :=
  ⟨mkRat 171 2, "Strong fit.", [], ["Python"], ["Leadership"],
   ⟨"Jane Doe", "jane@example.com", mkRat 5 1⟩, ⟨8, 4⟩⟩

/-- An inner payload whose `json.loads` fails at char offset 503
(`"["` then 251 copies of `"1,"` then a stray `"x"`), so the decode
error's text — `"Expecting value: line 1 column 504 (char 503)"` —
contains the substring `"503"`. -/
def c4InnerText : String :=
  "[" ++ String.join (List.replicate 251 "1,") ++ "x"

/-- The MIME types `extract_text_from_file` dispatches on. -/
def recognizedMimeTypes : List String :=
  ["application/pdf",
   "application/vnd.openxmlformats-officedocument.wordprocessingml.document",
   "application/msword",
   "text/plain"]

/-- Endpoint returning 503 on the first four calls and a well-formed
200 on the fifth. -/
def oracle503then200 : Nat → String → AttemptOutcome :=
  fun n _ => if n < 4 then .resp 503 "overloaded" else .resp 200 (geminiBody goodInnerJson)

/-- Endpoint whose first response is a 200 carrying the char-503
decode-failure payload, then a well-formed 200. -/
def oracleC4 : Nat → String → AttemptOutcome :=
  fun n _ =>
    if n = 0 then .resp 200 (geminiBody c4InnerText)
    else .resp 200 (geminiBody goodInnerJson)

/-- A document library that always succeeds with no pages/paragraphs. -/
def okLib : List Nat → Except String (List String) := fun _ => .ok []

/-- An LLM client stub for runs that must never reach the client. -/
def noLlm : String → String → Except PyExc ScreeningResult :=
  fun _ _ => .error (.generic "LLM must not be reached")

/-- A side's processed text counts as missing input: either it resolved
to no text at all, or to a string that is empty or blank after
stripping (exactly the condition `not t or not t.strip()` rejects). -/
def missingResolved (res : Except ExtractError (Option String)) : Prop :=
  res = .ok none ∨ ∃ s, res = .ok (some s) ∧ (s = "" ∨ pyStrip s = "")

/-! ## Theorems -/

theorem data_append (a b : String) : (a ++ b).data = a.data ++ b.data := by
  cases a; cases b; rfl

/-- **C8.** Prompt assembly is deterministic and order-preserving: the
assembled prompt is, byte for byte, the template body, then the
delimited job-description section, then the delimited resume section
(so the job description always precedes the resume), and identical
inputs yield identical output. -/
theorem claim_C8_prompt_assembly :
    (∀ template resume_text job_description_text : String,
       (buildPrompt template resume_text job_description_text).data =
         template.data ++ promptJdHeader.data ++ job_description_text.data ++
           promptMidSection.data ++ resume_text.data ++ promptTail.data)
  ∧ (∀ t r j t' r' j' : String, t = t' → r = r' → j = j' →
       buildPrompt t r j = buildPrompt t' r' j') := by
  constructor
  · intro template resume_text job_description_text
    simp [buildPrompt, data_append]
  · intro t r j t' r' j' ht hr hj
    rw [ht, hr, hj]

theorem claim_C8_witness :
    buildPrompt "TPL" "the resume" "the jd" = buildPrompt "TPL" "the resume" "the jd" :=
  claim_C8_prompt_assembly.2 "TPL" "the resume" "the jd" "TPL" "the resume" "the jd"
    rfl rfl rfl

/-- **C5.** For every byte content, `extract_text_from_file` with a MIME
type outside the recognized set fails with the unsupported-format
error, regardless of the bytes. -/
theorem claim_C5_unsupported_format :
    ∀ (pdfLib docxLib : List Nat → Except String (List String))
      (content : List Nat) (mime : String),
      mime ∉ recognizedMimeTypes →
      extract_text_from_file pdfLib docxLib content mime =
        .error (.unsupportedFmt mime) := by
  intro pdfLib docxLib content mime h
  simp only [recognizedMimeTypes, List.mem_cons, List.not_mem_nil, or_false,
    not_or] at h
  obtain ⟨h1, h2, h3, h4⟩ := h
  simp [extract_text_from_file, h1, h2, h3, h4]

theorem claim_C5_witness :
    "image/png" ∉ recognizedMimeTypes ∧
    extract_text_from_file okLib okLib [1, 2, 3] "image/png" =
      .error (.unsupportedFmt "image/png") :=
  ⟨by decide, claim_C5_unsupported_format okLib okLib [1, 2, 3] "image/png" (by decide)⟩

/-- **C6.** With MIME type `text/plain` the bytes are decoded strictly
as UTF-8 and stripped; any byte sequence the strict decoder rejects
makes extraction fail with the decode error (an extraction failure,
never silently-replaced bytes, never an unsupported-format error). -/
theorem claim_C6_plaintext_strict_utf8 :
    (∀ (pdfLib docxLib : List Nat → Except String (List String))
       (bs : List Nat) (s : String),
       utf8Decode bs = .ok s →
       extract_text_from_file pdfLib docxLib bs "text/plain" = .ok (pyStrip s))
  ∧ (∀ (pdfLib docxLib : List Nat → Except String (List String))
       (bs : List Nat) (r : Utf8Reason),
       utf8Decode bs = .error r →
       extract_text_from_file pdfLib docxLib bs "text/plain" =
         .error (.unicodeDecodeErr r)) := by
  constructor
  · intro pdfLib docxLib bs s h
    simp [extract_text_from_file, h]
  · intro pdfLib docxLib bs r h
    simp [extract_text_from_file, h]

theorem claim_C6_witness :
    extract_text_from_file okLib okLib [0x68, 0x69, 0x20] "text/plain" = .ok "hi" ∧
    extract_text_from_file okLib okLib [0xFF] "text/plain" =
      .error (.unicodeDecodeErr .invalidStartByte) :=
  ⟨claim_C6_plaintext_strict_utf8.1 okLib okLib [0x68, 0x69, 0x20] "hi " (by decide),
   claim_C6_plaintext_strict_utf8.2 okLib okLib [0xFF] .invalidStartByte (by decide)⟩

/-- **C10.** A file uploaded with no declared content type is handled
as `text/plain`: the run is identical to one where the file declares
`text/plain` (for either side), and the `text/plain` treatment is the
strict UTF-8 decode-and-strip — not an unsupported-format rejection. -/
theorem claim_C10_default_content_type :
    (∀ (pdfLib docxLib : List Nat → Except String (List String))
       (llm : String → String → Except PyExc ScreeningResult)
       (c : List Nat) (jf : Option UploadFile) (jt : Option String),
       screen_candidate pdfLib docxLib llm (some ⟨c, none⟩) jf none jt =
         screen_candidate pdfLib docxLib llm (some ⟨c, some "text/plain"⟩) jf none jt)
  ∧ (∀ (pdfLib docxLib : List Nat → Except String (List String))
       (llm : String → String → Except PyExc ScreeningResult)
       (rf : Option UploadFile) (rt : Option String) (c : List Nat),
       screen_candidate pdfLib docxLib llm rf (some ⟨c, none⟩) rt none =
         screen_candidate pdfLib docxLib llm rf (some ⟨c, some "text/plain"⟩) rt none)
  ∧ (∀ (pdfLib docxLib : List Nat → Except String (List String)) (c : List Nat),
       extract_text_from_file pdfLib docxLib c (contentTypeOrPlain none) =
         match utf8Decode c with
         | .ok s => .ok (pyStrip s)
         | .error r => .error (.unicodeDecodeErr r)) := by
  refine ⟨fun pdfLib docxLib llm c jf jt => rfl, fun pdfLib docxLib llm rf rt c => rfl,
    fun pdfLib docxLib c => ?_⟩
  simp only [extract_text_from_file, contentTypeOrPlain]
  norm_num
  cases utf8Decode c <;> rfl

theorem callLoop_calls_le (oracle : Nat → AttemptOutcome) :
    ∀ (rem attempt calls : Nat) (sleeps : List Rat),
      (callLoop oracle rem attempt calls sleeps).calls ≤ calls + rem := by
  intro rem
  induction rem with
  | zero => intro attempt calls sleeps; simp [callLoop]
  | succ n ih =>
    intro attempt calls sleeps
    cases h : processAttempt attempt (oracle attempt) with
    | ret r => simp [callLoop, h]
    | raiseExc e => simp [callLoop, h]
    | retryAfter b =>
      simp only [callLoop, h]
      exact le_trans (ih (attempt + 1) (calls + 1) (sleeps ++ [b])) (by omega)

/-- **C2.** The client makes at most `MAX_RETRIES = 5` outbound calls;
a 503 or timeout on attempt `n-1` (0-indexed) that is not the last
sleeps `2^(n-1) * 1.0` seconds and retries as attempt `n`; and against
an endpoint giving 503 on the first four calls and a valid 200 on the
fifth, the run succeeds after calls 5 and backoffs 1, 2, 4, 8 — 15
seconds in total. -/
theorem claim_C2_retry_backoff :
    (∀ (apiKey template : String) (oracle : Nat → String → AttemptOutcome)
       (resume_text job_description_text : String),
       (call_llm_screening apiKey template oracle resume_text job_description_text).calls
         ≤ MAX_RETRIES)
  ∧ (∀ (oracle : Nat → AttemptOutcome) (rem n calls : Nat) (sleeps : List Rat),
       1 ≤ n → n ≤ MAX_RETRIES - 1 →
       (oracle (n - 1) = .timeout ∨ ∃ b, oracle (n - 1) = .resp 503 b) →
       callLoop oracle (rem + 1) (n - 1) calls sleeps =
         callLoop oracle rem n (calls + 1) (sleeps ++ [mkRat (2 ^ (n - 1)) 1]))
  ∧ call_llm_screening "key" "TPL" oracle503then200 "resume text" "jd text" =
      ⟨5, [1, 2, 4, 8], .ok goodResult⟩
  ∧ ([1, 2, 4, 8] : List Rat).sum = 15 := by
  refine ⟨?_, ?_, by decide, by norm_num [List.sum_cons, List.sum_nil]⟩
  · intro apiKey template oracle resume_text job_description_text
    unfold call_llm_screening
    split
    · simp
    · exact le_trans
        (callLoop_calls_le _ MAX_RETRIES 0 0 []) (by simp)
  · intro oracle rem n calls sleeps h1 h2 hor
    have hn : n - 1 < MAX_RETRIES - 1 := by
      simp only [MAX_RETRIES] at h2 ⊢; omega
    have hstep : processAttempt (n - 1) (oracle (n - 1)) =
        .retryAfter (backoffTime (n - 1)) := by
      rcases hor with h | ⟨b, h⟩ <;> rw [h] <;> simp [processAttempt, hn]
    have hcast : backoffTime (n - 1) = mkRat (2 ^ (n - 1)) 1 := by
      simp [backoffTime]
    simp only [callLoop, hstep, hcast]
    have : n - 1 + 1 = n := by omega
    rw [this]

theorem claim_C2_witness :
    callLoop (fun _ => .resp 503 "x") 4 1 1 [1] =
      callLoop (fun _ => .resp 503 "x") 3 2 2 ([1] ++ [mkRat (2 ^ 1) 1]) :=
  claim_C2_retry_backoff.2.1 (fun _ => .resp 503 "x") 3 2 1 [1] (by decide) (by decide)
    (Or.inr ⟨"x", rfl⟩)

/-- **C3 counterexample.** Against an endpoint answering 503 on every
attempt, the run makes five calls but the escaping error is the generic
`"LLM API request failed: <body>"` exception — byte-identical to the
error a single-attempt non-retryable failure (here a 400) raises — and
not the dedicated `"Maximum retry attempts reached for LLM API."`
exhaustion error, which is unreachable on this path. -/
theorem claim_C3_counterexample :
    call_llm_screening "key" "TPL" (fun _ _ => .resp 503 "Service Unavailable") "r" "j" =
      ⟨5, [1, 2, 4, 8], .error (.generic "LLM API request failed: Service Unavailable")⟩
  ∧ (call_llm_screening "key" "TPL" (fun _ _ => .resp 400 "Service Unavailable") "r" "j")
      = ⟨1, [], .error (.generic "LLM API request failed: Service Unavailable")⟩
  ∧ (call_llm_screening "key" "TPL" (fun _ _ => .resp 503 "Service Unavailable") "r" "j").outcome
      ≠ .error (.generic "Maximum retry attempts reached for LLM API.") := by
  refine ⟨by decide, by decide, by decide⟩

/-- **C3 (amended).** Against an endpoint answering 503 on every
attempt, `call_llm_screening` makes exactly five outbound calls (after
backoffs 1, 2, 4, 8) and then fails — but with the same generic
request-failure exception a single-attempt non-retryable status raises,
carrying the response body; the dedicated retry-exhaustion error is not
what escapes. -/
theorem claim_C3_amended :
    ∀ (apiKey template resume_text job_description_text body : String),
      apiKey ≠ "" →
      call_llm_screening apiKey template (fun _ _ => .resp 503 body)
          resume_text job_description_text =
        ⟨5, [1, 2, 4, 8], .error (.generic ("LLM API request failed: " ++ body))⟩ := by
  intro apiKey template resume_text job_description_text body hkey
  unfold call_llm_screening
  rw [if_neg hkey]
  rfl

theorem claim_C3_witness :
    call_llm_screening "key" "TPL" (fun _ _ => .resp 503 "overloaded") "r" "j" =
      ⟨5, [1, 2, 4, 8], .error (.generic ("LLM API request failed: " ++ "overloaded"))⟩ :=
  claim_C3_amended "key" "TPL" "r" "j" "overloaded" (by decide)

/-- **C4 counterexample.** An HTTP-200 response whose inner payload
fails `json.loads` at char offset 503 produces the exception text
`"Expecting value: line 1 column 504 (char 503)"`; the catch-all retry
condition `"503" in str(e)` matches it, so the client *does* make a
further outbound call after a 200-with-malformed-body (two calls in
this run). -/
theorem claim_C4_counterexample :
    handle200 (geminiBody c4InnerText) =
      .error (.jsonDecode ⟨"Expecting value", 1, 504, 503⟩)
  ∧ pyInStr "503" (JsonDecodeError.toMessage ⟨"Expecting value", 1, 504, 503⟩) = true
  ∧ call_llm_screening "key" "TPL" oracleC4 "r" "j" = ⟨2, [1], .ok goodResult⟩ := by
  refine ⟨by decide, by decide, by decide⟩

/-- **C4 (amended).** A 200-status response whose body fails to parse
or validate aborts the run immediately with that parse error and no
further outbound call — *unless* the string representation of the
exception contains `"503"` and the attempt is not the last, in which
case the catch-all handler sleeps and retries it like a transient
failure. -/
theorem claim_C4_amended :
    (∀ (oracle : Nat → AttemptOutcome) (rem attempt calls : Nat) (sleeps : List Rat)
       (body : String) (e : PyExc),
       oracle attempt = .resp 200 body →
       handle200 body = .error e →
       pyInStr "503" e.toMessage = false →
       callLoop oracle (rem + 1) attempt calls sleeps = ⟨calls + 1, sleeps, .error e⟩)
  ∧ (∀ (oracle : Nat → AttemptOutcome) (rem attempt calls : Nat) (sleeps : List Rat)
       (body : String) (e : PyExc),
       attempt < MAX_RETRIES - 1 →
       oracle attempt = .resp 200 body →
       handle200 body = .error e →
       pyInStr "503" e.toMessage = true →
       callLoop oracle (rem + 1) attempt calls sleeps =
         callLoop oracle rem (attempt + 1) (calls + 1) (sleeps ++ [backoffTime attempt])) := by
  constructor
  · intro oracle rem attempt calls sleeps body e ho he h503
    have hstep : processAttempt attempt (oracle attempt) = .raiseExc e := by
      rw [ho]; simp [processAttempt, he, h503]
    simp [callLoop, hstep]
  · intro oracle rem attempt calls sleeps body e hlt ho he h503
    have hstep : processAttempt attempt (oracle attempt) =
        .retryAfter (backoffTime attempt) := by
      rw [ho]; simp [processAttempt, he, h503, hlt]
    simp [callLoop, hstep]

theorem claim_C4_witness :
    callLoop (fun _ => .resp 200 "nonsense") 5 0 0 [] =
      ⟨1, [], .error (.jsonDecode ⟨"Expecting value", 1, 1, 0⟩)⟩ :=
  claim_C4_amended.1 (fun _ => .resp 200 "nonsense") 4 0 0 [] "nonsense"
    (.jsonDecode ⟨"Expecting value", 1, 1, 0⟩) rfl (by decide) (by decide)

theorem vScorePercent_ok_isSome {j : Option Json} {q : Rat}
    (h : vScorePercent j = .ok q) : j.isSome := by
  cases j with
  | none => simp [vScorePercent, vFloat] at h
  | some _ => rfl

theorem vStr_ok_isSome {loc : List String} {j : Option Json} {s : String}
    (h : vStr loc j = .ok s) : j.isSome := by
  cases j with
  | none => simp [vStr] at h
  | some _ => rfl

theorem vExtractedData_ok_isSome {j : Option Json} {d : ExtractedData}
    (h : vExtractedData j = .ok d) : j.isSome := by
  cases j with
  | none => simp [vExtractedData] at h
  | some _ => rfl

theorem vSkillBreakdown_ok_isSome {j : Option Json} {d : SkillBreakdown}
    (h : vSkillBreakdown j = .ok d) : j.isSome := by
  cases j with
  | none => simp [vSkillBreakdown] at h
  | some _ => rfl

/-- A successful validation forces every `Field(...)`-declared field to
be present in the payload. -/
theorem validate_ok_requires (fields : List (String × Json)) (r : ScreeningResult)
    (h : validateScreeningResult fields = .ok r) :
    (jsonGet fields "match_score_percent").isSome ∧
    (jsonGet fields "fit_summary").isSome ∧
    (jsonGet fields "extracted_data").isSome ∧
    (jsonGet fields "skill_breakdown").isSome := by
  unfold validateScreeningResult at h
  dsimp only at h
  split at h
  case _ a b c d e f g h1 h2 h3 h4 h5 h6 h7 =>
    exact ⟨vScorePercent_ok_isSome h1, vStr_ok_isSome h2, vExtractedData_ok_isSome h6,
      vSkillBreakdown_ok_isSome h7⟩
  case _ => simp at h

/-- **C1 counterexample.** A 200 body whose inner payload has no
`critical_missing_skills` key at all deserializes *successfully*:
the run returns a partially-populated `ScreeningResult` whose
`critical_missing_skills` was defaulted to `[]` — not a validation
failure. -/
theorem claim_C1_counterexample :
    (match jsonLoads c1InnerJson with
     | .ok (.obj fs) => jsonGet fs "critical_missing_skills"
     | _ => some .null).isNone = true
  ∧ call_llm_screening "key" "TPL" (fun _ _ => .resp 200 (geminiBody c1InnerJson)) "r" "j"
      = ⟨1, [], .ok c1PartialResult⟩
  ∧ c1PartialResult.critical_missing_skills = [] := by
  refine ⟨by decide, by decide, by decide⟩

/-- **C1 (amended).** Only the four fields declared with `Field(...)` —
`match_score_percent`, `fit_summary`, `extracted_data`,
`skill_breakdown` — are hard-required: a payload missing any of them
fails validation (hence `MalformedResponse`); the three list fields are
declared with `default_factory=list` and silently default to `[]`. -/
theorem claim_C1_amended :
    ∀ (fields : List (String × Json)),
      (jsonGet fields "match_score_percent" = none ∨
       jsonGet fields "fit_summary" = none ∨
       jsonGet fields "extracted_data" = none ∨
       jsonGet fields "skill_breakdown" = none) →
      ∃ es, validateScreeningResult fields = .error es := by
  intro fields hmiss
  cases hv : validateScreeningResult fields with
  | error es => exact ⟨es, rfl⟩
  | ok r =>
    exfalso
    obtain ⟨c1, c2, c3, c4⟩ := validate_ok_requires fields r hv
    rcases hmiss with h | h | h | h <;> simp [h] at c1 c2 c3 c4

theorem claim_C1_witness : ∃ es, validateScreeningResult [] = .error es :=
  claim_C1_amended [] (Or.inl rfl)

/-- **C7.** A side whose inputs resolve to missing text (no file and
falsy text, or a file whose extraction yields blank text with no text
supplied) makes `screen_candidate` fail with the 400 `MissingInput`
error naming that side — resume checked first, and for the
job-description naming the resume side must have resolved non-blank —
and in every such run the LLM client is invoked zero times. -/
theorem claim_C7_missing_input :
    (∀ (pdfLib docxLib : List Nat → Except String (List String))
       (llm : String → String → Except PyExc ScreeningResult)
       (rf jf : Option UploadFile) (rt jt : Option String),
       missingResolved (processSide pdfLib docxLib rf rt) →
       (∃ o, processSide pdfLib docxLib jf jt = .ok o) →
       screen_candidate pdfLib docxLib llm rf jf rt jt =
         ⟨.error ⟨400, "Missing resume input (file or text)."⟩, 0⟩)
  ∧ (∀ (pdfLib docxLib : List Nat → Except String (List String))
       (llm : String → String → Except PyExc ScreeningResult)
       (rf jf : Option UploadFile) (rt jt : Option String) (s : String),
       processSide pdfLib docxLib rf rt = .ok (some s) →
       ¬ (s = "" ∨ pyStrip s = "") →
       missingResolved (processSide pdfLib docxLib jf jt) →
       screen_candidate pdfLib docxLib llm rf jf rt jt =
         ⟨.error ⟨400, "Missing job description input (file or text)."⟩, 0⟩)
  ∧ (∀ (pdfLib docxLib : List Nat → Except String (List String))
       (llm : String → String → Except PyExc ScreeningResult)
       (rf jf : Option UploadFile) (rt jt : Option String),
       missingResolved (processSide pdfLib docxLib rf rt) ∨
       missingResolved (processSide pdfLib docxLib jf jt) →
       (screen_candidate pdfLib docxLib llm rf jf rt jt).llmCalls = 0) := by
  refine ⟨?_, ?_, ?_⟩
  · intro pdfLib docxLib llm rf jf rt jt hre hjd
    obtain ⟨o, ho⟩ := hjd
    rcases hre with hnone | ⟨s, hsome, hblank⟩
    · simp [screen_candidate, hnone, ho]
    · simp only [screen_candidate, hsome, ho]
      rw [if_pos hblank]
  · intro pdfLib docxLib llm rf jf rt jt s hres hnb hjd
    rcases hjd with hjnone | ⟨u, hu, hub⟩
    · simp only [screen_candidate, hres, hjnone]
      rw [if_neg hnb]
    · simp only [screen_candidate, hres, hu]
      rw [if_neg hnb, if_pos hub]
  · intro pdfLib docxLib llm rf jf rt jt hmiss
    rcases hmiss with hre | hjd
    · cases hjd : processSide pdfLib docxLib jf jt with
      | error e =>
        rcases hre with hnone | ⟨s, hsome, hblank⟩
        · simp [screen_candidate, hnone, hjd]
        · simp [screen_candidate, hsome, hjd]
      | ok o =>
        rcases hre with hnone | ⟨s, hsome, hblank⟩
        · simp [screen_candidate, hnone, hjd]
        · simp only [screen_candidate, hsome, hjd]
          rw [if_pos hblank]
    · rcases hjd with hjnone | ⟨u, hu, hub⟩
      · cases hres : processSide pdfLib docxLib rf rt with
        | error e => simp [screen_candidate, hres]
        | ok ro =>
          cases ro with
          | none => simp [screen_candidate, hres, hjnone]
          | some s =>
            simp only [screen_candidate, hres, hjnone]
            by_cases hb : (s = "" ∨ pyStrip s = "")
            · rw [if_pos hb]
            · rw [if_neg hb]
      · cases hres : processSide pdfLib docxLib rf rt with
        | error e => simp [screen_candidate, hres]
        | ok ro =>
          cases ro with
          | none => simp [screen_candidate, hres, hu]
          | some s =>
            simp only [screen_candidate, hres, hu]
            by_cases hb : (s = "" ∨ pyStrip s = "")
            · rw [if_pos hb]
            · rw [if_neg hb, if_pos hub]

theorem claim_C7_witness :
    screen_candidate okLib okLib noLlm none none none none =
      ⟨.error ⟨400, "Missing resume input (file or text)."⟩, 0⟩ :=
  claim_C7_missing_input.1 okLib okLib noLlm none none none none
    (Or.inl rfl) ⟨none, rfl⟩

/-- **C9 counterexample.** Supplying *both* a resume file and non-empty
resume text is not rejected: the run proceeds (using the text), returns
the screening result, and never even consults the file's extractor —
here a PDF library that would have failed on these bytes. -/
theorem claim_C9_counterexample :
    screen_candidate (fun _ => .error "corrupt pdf") okLib (fun _ _ => .ok goodResult)
        (some ⟨[0xFF, 0xD8], some "application/pdf"⟩) none
        (some "resume text") (some "jd text")
      = ⟨.ok goodResult, 1⟩ := by decide

/-- **C9 (amended).** When both a file and truthy text are supplied for
a side, `screen_candidate` does not reject the request: the text takes
precedence and the file is ignored entirely (the run equals the run
with no file on that side). -/
theorem claim_C9_amended :
    (∀ (pdfLib docxLib : List Nat → Except String (List String))
       (llm : String → String → Except PyExc ScreeningResult)
       (f : UploadFile) (jf : Option UploadFile) (rt jt : Option String),
       pyTruthyStr rt = true →
       screen_candidate pdfLib docxLib llm (some f) jf rt jt =
         screen_candidate pdfLib docxLib llm none jf rt jt)
  ∧ (∀ (pdfLib docxLib : List Nat → Except String (List String))
       (llm : String → String → Except PyExc ScreeningResult)
       (rf : Option UploadFile) (f : UploadFile) (rt jt : Option String),
       pyTruthyStr jt = true →
       screen_candidate pdfLib docxLib llm rf (some f) rt jt =
         screen_candidate pdfLib docxLib llm rf none rt jt) := by
  constructor
  · intro pdfLib docxLib llm f jf rt jt h
    simp [screen_candidate, processSide, h]
  · intro pdfLib docxLib llm rf f rt jt h
    simp [screen_candidate, processSide, h]

theorem claim_C9_witness :
    screen_candidate okLib okLib noLlm (some ⟨[1, 2], some "application/pdf"⟩) none
        (some "resume") (some "jd") =
      screen_candidate okLib okLib noLlm none none (some "resume") (some "jd") :=
  claim_C9_amended.1 okLib okLib noLlm ⟨[1, 2], some "application/pdf"⟩ none
    (some "resume") (some "jd") (by decide)

end ResumeWise
